import Mathlib

/-!
# Verification of the AI code-review pipeline

A shallow embedding of the review pipeline in `script/code_review.py`
(the chat-messages variant) and `script/code_review - Copy.py`
(the diff-and-rules variant), with proofs about the diff extractor,
the feedback requester, the position resolver and the review publisher.

Python values returned by JSON parsing are modelled by `Json`;
Python exceptions by `PyExc`; a network interaction by `AttemptResult`.
-/

/-- A parsed JSON value, as produced by `response.json()`. -/
inductive Json where
  | null
  | bool (b : Bool)
  | num (n : Int)
  | str (s : String)
  | arr (xs : List Json)
  | obj (kvs : List (String × Json))
deriving Repr

/-- Python exceptions that the embedded code can raise.  `requestException`
stands for `requests.exceptions.RequestException` and all of its subclasses
(connection errors, timeouts, `HTTPError` from `raise_for_status`, and —
for requests ≥ 2.27 — `JSONDecodeError` raised by `response.json()`). -/
inductive PyExc where
  | requestException
  | keyError (k : String)
  | typeError
  | indexError
  | unboundLocalError
deriving Repr, DecidableEq

/-- Python truthiness of a parsed JSON value (`if feedback:`). -/
def pyTruthy : Json → Bool
  | .null => false
  | .bool b => b
  | .num n => n != 0
  | .str s => s ≠ ""
  | .arr xs => !xs.isEmpty
  | .obj kvs => !kvs.isEmpty

/-- First-match association lookup: Python `dict` access for objects
(parsed JSON objects have distinct keys, so first-match is exact). -/
def Json.lookup (j : Json) (k : String) : Option Json :=
  match j with
  | .obj kvs => kvs.lookup k
  | _ => none

/-- Character-list prefix test (structural, so that concrete instances
reduce in the kernel). -/
def charsStartWith : List Char → List Char → Bool
  | [], _ => true
  | _ :: _, [] => false
  | a :: as, b :: bs => a == b && charsStartWith as bs

/-- Character-list contiguous-substring test. -/
def charsContain (needle : List Char) : List Char → Bool
  | [] => charsStartWith needle []
  | hay@(_ :: rest) => charsStartWith needle hay || charsContain needle rest

/-- Python `s.startswith(pre)`. -/
def pyStartsWith (s pre : String) : Bool :=
  charsStartWith pre.data s.data

/-- Python `s.endswith(suf)` for a single suffix. -/
def pyEndsWith (s suf : String) : Bool :=
  charsStartWith suf.data.reverse s.data.reverse

/-- Python substring test `needle in hay` on strings: `needle` occurs as a
contiguous substring of `hay`. -/
def strContains (hay needle : String) : Bool :=
  charsContain needle.data hay.data

/-- Helper for `pySplitNL`: accumulate the current piece (reversed). -/
def splitNLAux : List Char → List Char → List String
  | [], cur => [String.mk cur.reverse]
  | '\n' :: rest, cur => String.mk cur.reverse :: splitNLAux rest []
  | c :: rest, cur => splitNLAux rest (c :: cur)

/-- Python `s.split('\n')`: split at every `'\n'`, keeping empty pieces
(so a trailing newline yields a final empty string, and `''` yields `['']`). -/
def pySplitNL (s : String) : List String :=
  splitNLAux s.data []

/-- Python `k in j` for a string `k` and an arbitrary value `j`:
key membership for a dict, element membership for a list, substring test
for a string; `TypeError` for non-container values. -/
def pyContains (j : Json) (k : String) : Except PyExc Bool :=
  match j with
  | .obj _ => .ok (j.lookup k).isSome
  | .arr xs => .ok (xs.any fun x => match x with | .str s => s = k | _ => false)
  | .str s => .ok (strContains s k)
  | _ => .error .typeError

/-- Python `j[k]` for a string key `k`: dict lookup (raising `KeyError` when
the key is absent); `TypeError` on lists, strings and scalars. -/
def pyIndexStr (j : Json) (k : String) : Except PyExc Json :=
  match j with
  | .obj _ =>
    match j.lookup k with
    | some v => .ok v
    | none => .error (.keyError k)
  | _ => .error .typeError

/-- Python `len(j)`: length of a string, list or dict; `TypeError` otherwise. -/
def pyLen (j : Json) : Except PyExc Nat :=
  match j with
  | .str s => .ok s.length
  | .arr xs => .ok xs.length
  | .obj kvs => .ok kvs.length
  | _ => .error .typeError

/-- Python `j[i]` for a natural index `i`: list element (`IndexError` out of
range), one-character string for a string, `KeyError` on a dict (Python dict
indexing with the integer key `i`, rendered here as its decimal string) and
`TypeError` on scalars. -/
def pyIndexNat (j : Json) (i : Nat) : Except PyExc Json :=
  match j with
  | .arr xs =>
    match xs.get? i with
    | some v => .ok v
    | none => .error .indexError
  | .str s =>
    match s.data.get? i with
    | some c => .ok (.str (String.mk [c]))
    | none => .error .indexError
  | .obj _ => .error (.keyError (toString i))
  | _ => .error .typeError

/-- Python iteration `for x in j`: elements of a list, one-character strings
of a string, keys of a dict; `TypeError` on scalars. -/
def pyIter (j : Json) : Except PyExc (List Json) :=
  match j with
  | .arr xs => .ok xs
  | .str s => .ok (s.data.map fun c => .str (String.mk [c]))
  | .obj kvs => .ok (kvs.map fun kv => .str kv.1)
  | _ => .error .typeError

/-- Python `needle in hay` where `hay` is a string and `needle` an arbitrary
value: a substring test when `needle` is a string, `TypeError` otherwise. -/
def pyInStr (needle : Json) (hay : String) : Except PyExc Bool :=
  match needle with
  | .str n => .ok (strContains hay n)
  | _ => .error .typeError

/-- Body of an HTTP response: either text that parses as JSON, or text on
which `response.json()` raises a decode error. -/
inductive Body where
  | json (j : Json)
  | invalid
deriving Repr

/-- An HTTP response: status code and body. -/
structure HttpResponse where
  status : Nat
  body : Body

/-- Outcome of one `requests.post` call: either the call itself raises
(connection error, timeout — a `RequestException`), or a response arrives. -/
inductive AttemptResult where
  | networkError
  | response (r : HttpResponse)

/-- A changed file of the pull request: `{filename, patch}` where the
`patch` key may be absent (`file.get('patch', '')`). -/
structure ChangedFile where
  filename : String
  patch : Option String
deriving Repr, DecidableEq

/-- The extension whitelist of `filter_relevant_files`. -/
def relevantExtensions : List String :=
  [".py", ".js", ".jsx", ".ts", ".tsx", ".java", ".cs", ".c", ".cpp", ".h", ".hpp",
   ".go", ".rb", ".php", ".html", ".css", ".kt", ".swift", ".scala", ".rs", ".sh",
   ".dart", ".sql"]

/-- `f['filename'].endswith(relevant_extensions)`: Python `str.endswith`
with a tuple argument is true when some tuple member is a suffix. -/
def isRelevantFile (f : ChangedFile) : Bool :=
  relevantExtensions.any fun ext => pyEndsWith f.filename ext

/-- `filter_relevant_files`: keep the files whose name ends with one of the
whitelisted extensions. -/
def filterRelevantFiles (files : List ChangedFile) : List ChangedFile :=
  files.filter isRelevantFile

/-- Helper for `pySplitlines`: accumulate the current line (reversed) while
scanning the character list. -/
def splitlinesAux : List Char → List Char → List String
  | [], cur => if cur.isEmpty then [] else [String.mk cur.reverse]
  | '\r' :: '\n' :: rest, cur => String.mk cur.reverse :: splitlinesAux rest []
  | '\n' :: rest, cur => String.mk cur.reverse :: splitlinesAux rest []
  | '\r' :: rest, cur => String.mk cur.reverse :: splitlinesAux rest []
  | c :: rest, cur => splitlinesAux rest (c :: cur)

/-- Python `str.splitlines()` restricted to the line boundaries that occur in
git patch text (`\n`, `\r\n`, `\r`): boundaries are not kept, and a trailing
boundary does not produce a final empty line. -/
def pySplitlines (s : String) : List String :=
  splitlinesAux s.data []

/-- The line filter of `fetch_added_lines_only`:
`line.startswith('+') and not line.startswith('+++')`. -/
def isKeptAddedLine (line : String) : Bool :=
  pyStartsWith line "+" && !pyStartsWith line "+++"

/-- The kept lines of `fetch_added_lines_only`, before joining. -/
def addedLines (patch : String) : List String :=
  (pySplitlines patch).filter isKeptAddedLine

/-- `fetch_added_lines_only`: keep the lines of the patch that start with
`'+'` but not with `'+++'`, and join them with `'\n'`. -/
def fetchAddedLinesOnly (file : ChangedFile) : String :=
  String.intercalate "\n" (addedLines (file.patch.getD ""))

/-- `fetch_diff` (diff-and-rules variant): the raw patch, `''` when absent. -/
def fetchDiff (file : ChangedFile) : String :=
  file.patch.getD ""

/-- The clean sentinel string of the prompt and the 204 branch. -/
def cleanSentinel : String := "Everything looks good."

/-- `response.raise_for_status()`: raises `HTTPError` (a `RequestException`)
on a 4xx/5xx status. -/
def raiseForStatus (r : HttpResponse) : Except PyExc Unit :=
  if 400 ≤ r.status then .error .requestException else .ok ()

/-- `response.json()`: the parsed JSON value, or — for a body that is not
valid JSON — `requests.exceptions.JSONDecodeError`, which (requests ≥ 2.27)
is a subclass of both `RequestException` and `ValueError`. -/
def responseJson (r : HttpResponse) : Except PyExc Json :=
  match r.body with
  | .json j => .ok j
  | .invalid => .error .requestException

/-- The response dissection of `send_diff_to_openai` (chat-messages variant):
`if "choices" in response_data and len(response_data["choices"]) > 0:
 return response_data["choices"][0]["message"]["content"]`, else print a
notice and return `None`.  (`response_data["choices"]` is bound once here;
re-evaluating it, as the source does, yields the same pure value.) -/
def extractChoicesContent (j : Json) : Except PyExc (Option Json) := do
  let has ← pyContains j "choices"
  if has then
    let choices ← pyIndexStr j "choices"
    let n ← pyLen choices
    if 0 < n then
      let c0 ← pyIndexNat choices 0
      let msg ← pyIndexStr c0 "message"
      let content ← pyIndexStr msg "content"
      return some content
    else
      return none
  else
    return none

/-- The `try` block of `send_diff_to_openai` (chat-messages variant):
one `requests.post`, `raise_for_status`, `response.json()`, then the
`choices` dissection. -/
def sendChatBody (att : AttemptResult) : Except PyExc (Option Json) := do
  match att with
  | .networkError => throw .requestException
  | .response r => do
    raiseForStatus r
    let j ← responseJson r
    extractChoicesContent j

/-- `send_diff_to_openai` of `code_review.py`: the `try` body with
`except requests.exceptions.RequestException: return None`.  Any other
exception (`KeyError`, `TypeError`, ...) escapes uncaught. -/
def sendDiffToOpenai (att : AttemptResult) : Except PyExc (Option Json) :=
  match sendChatBody att with
  | .error .requestException => .ok none
  | out => out

/-- A call of `send_diff_to_openai` threaded through a backend oracle:
the source body contains exactly one `requests.post` and no loop, so one
call consumes exactly one attempt (the `k`-th) and returns its result. -/
def sendDiffToOpenaiRun (backend : Nat → AttemptResult) (k : Nat) :
    Nat × Except PyExc (Option Json) :=
  (k + 1, sendDiffToOpenai (backend k))

/-- The post-parse dispatch of `send_diff_to_openai` in
`code_review - Copy.py`: a truthy `comments` entry is returned; otherwise a
dict's `message` entry; otherwise the parsed value itself. -/
def copyDispatch (j : Json) : Except PyExc (Option Json) := do
  let hasComments ← pyContains j "comments"
  if hasComments then
    let cs ← pyIndexStr j "comments"
    if pyTruthy cs then return some cs
  match j.lookup "message" with
  | some m => return some m
  | none => return some j

/-- The `try` block of `send_diff_to_openai` (diff-and-rules variant of
`code_review - Copy.py`): a 204 status is answered with the sentinel before
`raise_for_status`; a JSON decode failure is caught by the inner
`except ValueError: return None`. -/
def sendCopyBody (att : AttemptResult) : Except PyExc (Option Json) := do
  match att with
  | .networkError => throw .requestException
  | .response r =>
    if r.status = 204 then return some (.str cleanSentinel)
    else do
      raiseForStatus r
      match r.body with
      | .invalid => return none
      | .json j => copyDispatch j

/-- `send_diff_to_openai` of `code_review - Copy.py`: the `try` body with
`except requests.exceptions.RequestException: return None`. -/
def sendDiffToOpenaiCopy (att : AttemptResult) : Except PyExc (Option Json) :=
  match sendCopyBody att with
  | .error .requestException => .ok none
  | out => out

/-- The canonical feedback of the specification (the `Annotations` variant is
carried by the list-of-comments path of the diff-and-rules pipeline and is
not needed in string form here). -/
inductive CanonicalFeedback where
  | Clean
  | Summary (text : String)
deriving Repr, DecidableEq

/-- Canonical reading of a free-text feedback string: the sentinel is the
`Clean` signal (the equality test of `post_review` in
`code_review - Copy.py`); any other text is a free-text summary. -/
def canonOfString (s : String) : CanonicalFeedback :=
  if s = cleanSentinel then .Clean else .Summary s

/-- Canonical feedback produced by one call of the chat-messages requester:
a returned string is read by `canonOfString`; `None` or a non-string value
is no canonical feedback. -/
def chatFeedback (att : AttemptResult) : Option CanonicalFeedback :=
  match sendDiffToOpenai att with
  | .ok (some (.str s)) => some (canonOfString s)
  | _ => none

/-- Canonical feedback produced by one call of the diff-and-rules requester. -/
def copyFeedback (att : AttemptResult) : Option CanonicalFeedback :=
  match sendDiffToOpenaiCopy att with
  | .ok (some (.str s)) => some (canonOfString s)
  | _ => none

/-- The scanning loop of the position resolver in `post_review`
(`code_review - Copy.py`): walk the lines with a running index, overwrite
the position on every match, keep the accumulator otherwise. -/
def scanPos (p : String → Bool) : List String → Nat → Nat → Nat
  | [], _, pos => pos
  | l :: ls, idx, pos => scanPos p ls (idx + 1) (if p l then idx + 1 else pos)

/-- The match condition of the resolver:
`line.startswith('+') and comment['line'] in line`. -/
def matchesAnnot (t line : String) : Bool :=
  pyStartsWith line "+" && strContains line t

/-- The position resolver of `post_review` (`code_review - Copy.py`) for an
annotation whose `line` text is the string `t`: scan `diff.split('\n')`
starting from position 0. -/
def resolvePosition (diff t : String) : Nat :=
  scanPos (matchesAnnot t) (pySplitNL diff) 0 0

/-- A review comment of the publish payload: `{path, position, body}`. -/
structure ReviewComment where
  path : String
  position : Nat
  body : Json
deriving Repr

/-- The inner loop of `post_review` (`code_review - Copy.py`) for one
annotation `c`: for every diff line starting with `'+'`, evaluate
`comment['line'] in line` (short-circuit: `comment['line']` is only
evaluated for lines that start with `'+'`), overwriting the position on a
match. -/
def resolvePosAnnotAux (c : Json) : List String → Nat → Nat → Except PyExc Nat
  | [], _, pos => .ok pos
  | l :: ls, idx, pos =>
    if pyStartsWith l "+" then do
      let lj ← pyIndexStr c "line"
      let b ← pyInStr lj l
      resolvePosAnnotAux c ls (idx + 1) (if b then idx + 1 else pos)
    else resolvePosAnnotAux c ls (idx + 1) pos

/-- Position resolution of `post_review` (`code_review - Copy.py`) for one
annotation value `c`, over `diff.split('\n')`. -/
def resolvePosAnnot (diff : String) (c : Json) : Except PyExc Nat :=
  resolvePosAnnotAux c (pySplitNL diff) 0 0

/-- One iteration of the comment loop of `post_review`
(`code_review - Copy.py`): resolve the position, then build
`{path, position, body: comment['body']}`. -/
def reviewCommentOfAnnot (diff path : String) (c : Json) :
    Except PyExc ReviewComment := do
  let pos ← resolvePosAnnot diff c
  let b ← pyIndexStr c "body"
  return ⟨path, pos, b⟩

/-- The `review_comments` list built by `post_review`
(`code_review - Copy.py`): a single position-1 comment when the feedback is
the sentinel string, otherwise one comment per element of the Python
iteration over `comments`. -/
def buildCommentsCopy (comments : Json) (diff path : String) :
    Except PyExc (List ReviewComment) :=
  let isClean : Bool := match comments with | .str s => s = cleanSentinel | _ => false
  if isClean then .ok [⟨path, 1, comments⟩]
  else do
    let items ← pyIter comments
    items.mapM (reviewCommentOfAnnot diff path)

/-- Outcome of the review POST of `post_review` (`code_review - Copy.py`). -/
inductive PublishOutcome where
  | posted
  | failedLogged
  | nothingToPost
deriving Repr, DecidableEq

/-- `post_review` of `code_review - Copy.py`: build the comments, and when
the list is non-empty POST it once (no `try` around this POST: a network
error propagates uncaught); a non-200 status is only logged. -/
def postReviewCopy (pub : AttemptResult) (comments : Json) (diff : String)
    (file : ChangedFile) : Except PyExc (List ReviewComment × PublishOutcome) := do
  let cs ← buildCommentsCopy comments diff file.filename
  if cs.isEmpty then return (cs, .nothingToPost)
  match pub with
  | .networkError => throw .requestException
  | .response r =>
    if r.status ≠ 200 then return (cs, .failedLogged) else return (cs, .posted)

/-- The single-element comment list of `post_review` (`code_review.py`):
one comment at position 1 whose body is the feedback content. -/
def reviewCommentsFor (file : ChangedFile) (content : Json) : List ReviewComment :=
  [⟨file.filename, 1, content⟩]

/-- `post_review` of `code_review.py`: one POST of the single position-1
comment inside `try`.  A `RequestException` from `requests.post` itself is
caught, but the handler then evaluates `response.content` with `response`
never assigned, raising `UnboundLocalError`; a 4xx/5xx status raised by
`raise_for_status` is caught and logged (there `response` is assigned).
Returns `true` when the review was posted. -/
def postReview (pub : AttemptResult) (_content : Json) (_file : ChangedFile) :
    Except PyExc Bool :=
  match pub with
  | .networkError => .error .unboundLocalError
  | .response r =>
    if 400 ≤ r.status then .ok false else .ok true

/-- Result of the per-file loop body of `main` (`code_review.py`). -/
inductive FileResult where
  | noAddedLines
  | noFeedback
  | published (cs : List ReviewComment)
  | publishFailed (cs : List ReviewComment)
deriving Repr

/-- The loop body of `main` (`code_review.py`) for one file, given the
backend attempt outcome `b` and the publish attempt outcome `pub`:
skip when there are no added lines; request feedback; on falsy feedback log
and continue; otherwise post the review. -/
def processFile (b pub : AttemptResult) (file : ChangedFile) :
    Except PyExc FileResult := do
  let added := fetchAddedLinesOnly file
  if added ≠ "" then do
    let fb ← sendDiffToOpenai b
    match fb with
    | some content =>
      if pyTruthy content then do
        let ok ← postReview pub content file
        if ok then return .published (reviewCommentsFor file content)
        else return .publishFailed (reviewCommentsFor file content)
      else return .noFeedback
    | none => return .noFeedback
  else return .noAddedLines

/-- The file loop of `main` (`code_review.py`): process the files in order;
an uncaught exception in one iteration aborts the whole loop (no handler in
`main`), leaving the remaining files unprocessed. -/
def runFiles (env : ChangedFile → AttemptResult × AttemptResult) :
    List ChangedFile → Except PyExc (List (ChangedFile × FileResult))
  | [] => .ok []
  | f :: fs =>
    match processFile (env f).1 (env f).2 f with
    | .error e => .error e
    | .ok r =>
      match runFiles env fs with
      | .error e => .error e
      | .ok rest => .ok ((f, r) :: rest)

/-- `main` (`code_review.py`) restricted to its per-file behaviour: only the
files kept by `filter_relevant_files` are processed. -/
def mainRun (env : ChangedFile → AttemptResult × AttemptResult)
    (files : List ChangedFile) : Except PyExc (List (ChangedFile × FileResult)) :=
  runFiles env (filterRelevantFiles files)

/-- The scanning loop leaves the accumulator untouched when no line matches. -/
theorem scanPos_of_no_match (p : String → Bool) (ls : List String)
    (idx pos : Nat) (h : ∀ l ∈ ls, p l = false) :
    scanPos p ls idx pos = pos := by
  induction ls generalizing idx pos with
  | nil => rfl
  | cons l ls ih =>
    have hl : p l = false := h l (List.mem_cons_self l ls)
    simp only [scanPos, hl, if_false]
    exact ih (idx + 1) pos fun x hx => h x (List.mem_cons_of_mem l hx)

/-- The scanning loop returns the shifted 1-based index of the last matching
line, whatever the accumulator held before. -/
theorem scanPos_of_last_match (p : String → Bool) (ls : List String)
    (i : Nat) (hi : i < ls.length) (hmatch : p (ls.get ⟨i, hi⟩) = true)
    (hlast : ∀ j (hj : j < ls.length), i < j → p (ls.get ⟨j, hj⟩) = false)
    (idx pos : Nat) :
    scanPos p ls idx pos = idx + i + 1 := by
  induction ls generalizing i idx pos with
  | nil => exact absurd hi (Nat.not_lt_zero i)
  | cons l ls ih =>
    cases i with
    | zero =>
      have hl : p l = true := hmatch
      simp only [scanPos, hl, if_true]
      have hnone : ∀ x ∈ ls, p x = false := by
        intro x hx
        obtain ⟨⟨j, hj⟩, rfl⟩ := List.mem_iff_get.mp hx
        exact hlast (j + 1) (Nat.succ_lt_succ hj) (Nat.succ_pos j)
      rw [scanPos_of_no_match p ls (idx + 1) (idx + 1) hnone]
    | succ i' =>
      have hi' : i' < ls.length := Nat.lt_of_succ_lt_succ hi
      have hmatch' : p (ls.get ⟨i', hi'⟩) = true := hmatch
      have hlast' : ∀ j (hj : j < ls.length), i' < j → p (ls.get ⟨j, hj⟩) = false := by
        intro j hj hij
        exact hlast (j + 1) (Nat.succ_lt_succ hj) (Nat.succ_lt_succ hij)
      simp only [scanPos]
      rw [ih i' hi' hmatch' hlast' (idx + 1) _]
      omega

/-- C1: the position resolver of the Review Publisher returns the 1-based
index of the last diff line that starts with `'+'` and contains the
annotation's line text as a substring, and 0 when no line matches; on the
diff `"@@ -1,2 +1,3 @@\n context\n+added one\n+added two\n"` with line text
`"added one"` it returns 3. -/
theorem resolver_last_match_c1 :
    (∀ diff t : String,
      ((∀ l ∈ pySplitNL diff, matchesAnnot t l = false) →
        resolvePosition diff t = 0) ∧
      (∀ i (hi : i < (pySplitNL diff).length),
        matchesAnnot t ((pySplitNL diff).get ⟨i, hi⟩) = true →
        (∀ j (hj : j < (pySplitNL diff).length), i < j →
          matchesAnnot t ((pySplitNL diff).get ⟨j, hj⟩) = false) →
        resolvePosition diff t = i + 1)) ∧
    resolvePosition "@@ -1,2 +1,3 @@\n context\n+added one\n+added two\n" "added one" = 3 := by
  refine ⟨fun diff t => ⟨fun h => ?_, fun i hi hm hl => ?_⟩, by decide⟩
  · exact scanPos_of_no_match _ _ 0 0 h
  · have := scanPos_of_last_match (matchesAnnot t) (pySplitNL diff) i hi hm hl 0 0
    simpa [resolvePosition] using this

/-- Concrete instance of `resolver_last_match_c1`. -/
theorem resolver_last_match_c1_witness :
    resolvePosition "@@ -1,2 +1,3 @@\n context\n+added one\n+added two\n" "added one" = 3 :=
  resolver_last_match_c1.2

/-- Reduction of `Except` bind on a success, for `simp`. -/
@[simp] theorem exceptBindOk {ε α β : Type} (a : α) (f : α → Except ε β) :
    (Except.ok a : Except ε α) >>= f = f a := rfl

/-- Reduction of `Except` bind on an error, for `simp`. -/
@[simp] theorem exceptBindErr {ε α β : Type} (e : ε) (f : α → Except ε β) :
    (Except.error e : Except ε α) >>= f = Except.error e := rfl

/-- Reduction of `Except` map on a success, for `simp`. -/
@[simp] theorem exceptMapOk {ε α β : Type} (g : α → β) (a : α) :
    (g <$> (Except.ok a : Except ε α)) = Except.ok (g a) := rfl

/-- Reduction of `Except` map on an error, for `simp`. -/
@[simp] theorem exceptMapErr {ε α β : Type} (g : α → β) (e : ε) :
    (g <$> (Except.error e : Except ε α)) = Except.error e := rfl

/-- Reduction of `Except` pure, for `simp`. -/
@[simp] theorem exceptPure {ε α : Type} (a : α) :
    (pure a : Except ε α) = Except.ok a := rfl

/-- A backend for which every attempt is a transient network failure. -/
def alwaysFailBackend : Nat → AttemptResult := fun _ => .networkError

/-- C2 counterexample: against a backend that fails every attempt, one call
of `send_diff_to_openai` performs exactly one request attempt — not the
three attempts the claim requires — and returns `None`. -/
theorem retry_counterexample_c2 :
    (sendDiffToOpenaiRun alwaysFailBackend 0).1 = 1 ∧
    (sendDiffToOpenaiRun alwaysFailBackend 0).2 = .ok none ∧
    (sendDiffToOpenaiRun alwaysFailBackend 0).1 ≠ 3 :=
  ⟨rfl, rfl, by decide⟩

/-- C2 (amended): a call of the Feedback Requester performs exactly one
request attempt — there is no retry loop and no configured retry count —
and on a transient failure (network error/timeout, or 4xx/5xx status) it
returns the failure value `None` for that file. -/
theorem single_attempt_c2 (backend : Nat → AttemptResult) (k : Nat) :
    (sendDiffToOpenaiRun backend k).1 = k + 1 ∧
    (backend k = .networkError → (sendDiffToOpenaiRun backend k).2 = .ok none) ∧
    (∀ r, backend k = .response r → 400 ≤ r.status →
      (sendDiffToOpenaiRun backend k).2 = .ok none) := by
  refine ⟨rfl, fun h => ?_, fun r h hs => ?_⟩
  · show sendDiffToOpenai (backend k) = .ok none
    rw [h]
    rfl
  · show sendDiffToOpenai (backend k) = .ok none
    rw [h]
    simp [sendDiffToOpenai, sendChatBody, raiseForStatus, hs]

/-- Concrete instance of `single_attempt_c2`. -/
theorem single_attempt_c2_witness :
    (sendDiffToOpenaiRun alwaysFailBackend 0).1 = 0 + 1 ∧
    (sendDiffToOpenaiRun alwaysFailBackend 0).2 = .ok none :=
  ⟨(single_attempt_c2 alwaysFailBackend 0).1,
   (single_attempt_c2 alwaysFailBackend 0).2.1 rfl⟩

/-- A 2xx response whose body has a `choices` list whose first element lacks
the `message` key. -/
def malformedChoicesResponse : AttemptResult :=
  .response ⟨200, .json (.obj [("choices", .arr [.obj []])])⟩

/-- C3 counterexample: on a 2xx response with body `{"choices": [{}]}` the
Feedback Requester raises an uncaught `KeyError 'message'` (a crash), not
`Failure(MalformedResponse)`. -/
theorem malformed_crash_c3 :
    sendDiffToOpenai malformedChoicesResponse = .error (.keyError "message") :=
  rfl

/-- `j[k]` succeeds exactly on a dict with the key present. -/
theorem pyIndexStr_of_lookup {j : Json} {k : String} {v : Json}
    (h : j.lookup k = some v) : pyIndexStr j k = .ok v := by
  cases j <;> simp [Json.lookup] at h
  simp [pyIndexStr, Json.lookup, h]

/-- `k in j` is true on a dict with the key present. -/
theorem pyContains_of_lookup {j : Json} {k : String} {v : Json}
    (h : j.lookup k = some v) : pyContains j k = .ok true := by
  cases j <;> simp [Json.lookup] at h
  simp [pyContains, Json.lookup, h]

/-- C3 (amended): for a 2xx response the Requester returns the failure value
`None` without crashing exactly when the guard
`"choices" in response_data and len(response_data["choices"]) > 0` fails
without raising: when the body fails to parse as JSON, when the body is a
JSON object with no `choices` key, and when `choices` maps to an empty
list.  Malformed bodies past that guard crash instead of yielding a failure
value: a choices entry without the `message`/`content` nesting raises
`KeyError` (the counterexample), and a bare number body, `{"choices": 5}`
or `{"choices": "abc"}` raise `TypeError`. -/
theorem malformed_no_crash_cases_c3 (r : HttpResponse) (h : r.status < 400) :
    (r.body = .invalid → sendDiffToOpenai (.response r) = .ok none) ∧
    (∀ kvs, r.body = .json (.obj kvs) → (Json.obj kvs).lookup "choices" = none →
      sendDiffToOpenai (.response r) = .ok none) ∧
    (∀ kvs, r.body = .json (.obj kvs) →
      (Json.obj kvs).lookup "choices" = some (.arr []) →
      sendDiffToOpenai (.response r) = .ok none) ∧
    (r.body = .json (.num 5) →
      sendDiffToOpenai (.response r) = .error .typeError) ∧
    (r.body = .json (.obj [("choices", .num 5)]) →
      sendDiffToOpenai (.response r) = .error .typeError) ∧
    (r.body = .json (.obj [("choices", .str "abc")]) →
      sendDiffToOpenai (.response r) = .error .typeError) := by
  have hns : ¬ 400 ≤ r.status := Nat.not_le.mpr h
  refine ⟨fun hb => ?_, fun kvs hb hl => ?_, fun kvs hb hl => ?_,
    fun hb => ?_, fun hb => ?_, fun hb => ?_⟩
  · simp [sendDiffToOpenai, sendChatBody, raiseForStatus, hns, responseJson, hb]
  · simp [sendDiffToOpenai, sendChatBody, raiseForStatus, hns, responseJson, hb,
      extractChoicesContent, pyContains, hl]
  · simp [sendDiffToOpenai, sendChatBody, raiseForStatus, hns, responseJson, hb,
      extractChoicesContent, pyContains_of_lookup hl, pyIndexStr_of_lookup hl,
      pyLen]
  · have hx : extractChoicesContent (.num 5) = .error .typeError := rfl
    simp [sendDiffToOpenai, sendChatBody, raiseForStatus, hns, responseJson, hb, hx]
  · have hx : extractChoicesContent (.obj [("choices", .num 5)]) =
        .error .typeError := rfl
    simp [sendDiffToOpenai, sendChatBody, raiseForStatus, hns, responseJson, hb, hx]
  · have hx : extractChoicesContent (.obj [("choices", .str "abc")]) =
        .error .typeError := rfl
    simp [sendDiffToOpenai, sendChatBody, raiseForStatus, hns, responseJson, hb, hx]

/-- Concrete instance of `malformed_no_crash_cases_c3`. -/
theorem malformed_no_crash_cases_c3_witness :
    sendDiffToOpenai (.response ⟨200, .invalid⟩) = .ok none ∧
    sendDiffToOpenai (.response ⟨200, .json (.obj [("choices", .arr [])])⟩) =
      .ok none ∧
    sendDiffToOpenai (.response ⟨200, .json (.num 5)⟩) = .error .typeError :=
  ⟨(malformed_no_crash_cases_c3 ⟨200, .invalid⟩ (by decide)).1 rfl,
   (malformed_no_crash_cases_c3 ⟨200, .json (.obj [("choices", .arr [])])⟩
     (by decide)).2.2.1 [("choices", .arr [])] rfl rfl,
   (malformed_no_crash_cases_c3 ⟨200, .json (.num 5)⟩
     (by decide)).2.2.2.1 rfl⟩

/-- A 204 no-content outcome: by definition of 204 the body is empty, so
`response.json()` cannot parse it. -/
def noContentResponse : AttemptResult := .response ⟨204, .invalid⟩

/-- C4 counterexample: the chat-messages Feedback Requester of
`code_review.py` has no 204 branch; on a 204 no-content response it returns
the failure value `None` — its canonical feedback is not `Clean`. -/
theorem no_content_counterexample_c4 :
    sendDiffToOpenai noContentResponse = .ok none ∧
    chatFeedback noContentResponse = none ∧
    chatFeedback noContentResponse ≠ some .Clean :=
  ⟨rfl, rfl, by decide⟩

/-- C4 (amended): the diff-and-rules Requester of `code_review - Copy.py`
answers every 204 response with the sentinel — canonical feedback `Clean` —
regardless of body, while the chat-messages Requester of `code_review.py`
treats a 204 (whose empty body fails JSON parsing) as a failure (`None`). -/
theorem no_content_amended_c4 (b : Body) :
    sendDiffToOpenaiCopy (.response ⟨204, b⟩) = .ok (some (.str cleanSentinel)) ∧
    copyFeedback (.response ⟨204, b⟩) = some .Clean ∧
    sendDiffToOpenai noContentResponse = .ok none := by
  refine ⟨rfl, ?_, rfl⟩
  show copyFeedback (.response ⟨204, b⟩) = some .Clean
  simp [copyFeedback, sendDiffToOpenaiCopy, sendCopyBody, canonOfString]

/-- Concrete instance of `no_content_amended_c4`. -/
theorem no_content_amended_c4_witness :
    copyFeedback (.response ⟨204, .json .null⟩) = some .Clean :=
  (no_content_amended_c4 (.json .null)).2.1

/-- The `choices` dissection returns exactly the first choice's message
content when the expected nesting is present. -/
theorem extractChoicesContent_ok {j c0 m v : Json} {cs : List Json}
    (hc : j.lookup "choices" = some (.arr (c0 :: cs)))
    (hm : c0.lookup "message" = some m)
    (hv : m.lookup "content" = some v) :
    extractChoicesContent j = .ok (some v) := by
  simp [extractChoicesContent, pyContains_of_lookup hc, pyIndexStr_of_lookup hc,
    pyIndexStr_of_lookup hm, pyIndexStr_of_lookup hv, pyLen, pyIndexNat]

/-- C5: for a 2xx chat-completions response whose first choice's message
content is the string `c`, the Feedback Requester returns exactly `c`; its
canonical feedback is `Clean` when `c` is the sentinel
`"Everything looks good."` and `Summary c` — the unmodified text —
otherwise. -/
theorem chat_sentinel_summary_c5 (r : HttpResponse) (j c0 m : Json)
    (cs : List Json) (c : String)
    (hs : r.status < 400) (hb : r.body = .json j)
    (hc : j.lookup "choices" = some (.arr (c0 :: cs)))
    (hm : c0.lookup "message" = some m)
    (hv : m.lookup "content" = some (.str c)) :
    sendDiffToOpenai (.response r) = .ok (some (.str c)) ∧
    (c = cleanSentinel → chatFeedback (.response r) = some .Clean) ∧
    (c ≠ cleanSentinel → chatFeedback (.response r) = some (.Summary c)) := by
  have hns : ¬ 400 ≤ r.status := Nat.not_le.mpr hs
  have hsend : sendDiffToOpenai (.response r) = .ok (some (.str c)) := by
    simp [sendDiffToOpenai, sendChatBody, raiseForStatus, hns, responseJson, hb,
      extractChoicesContent_ok hc hm hv]
  refine ⟨hsend, fun hcs => ?_, fun hcs => ?_⟩
  · simp [chatFeedback, hsend, canonOfString, hcs]
  · simp [chatFeedback, hsend, canonOfString, hcs]

/-- Concrete instance of `chat_sentinel_summary_c5`. -/
theorem chat_sentinel_summary_c5_witness :
    chatFeedback (.response ⟨200, .json (.obj [("choices",
      .arr [.obj [("message", .obj [("content", .str "Fix stuff")])]])])⟩) =
      some (.Summary "Fix stuff") :=
  (chat_sentinel_summary_c5
    ⟨200, .json (.obj [("choices",
      .arr [.obj [("message", .obj [("content", .str "Fix stuff")])]])])⟩
    (.obj [("choices", .arr [.obj [("message", .obj [("content", .str "Fix stuff")])]])])
    (.obj [("message", .obj [("content", .str "Fix stuff")])])
    (.obj [("content", .str "Fix stuff")])
    [] "Fix stuff"
    (by decide) rfl rfl rfl rfl).2.2 (by decide)

/-- A patch whose last line is an added line of content `++x`, which the
diff renders as `+++x`. -/
def plusPlusPatch : String := "+++ b/f.py\n+keep\n+++x"

/-- C6 counterexample: the diff line `+++x` begins with `'+'` and is not the
diff's `+++ b/f.py` file-header line, yet `fetch_added_lines_only` drops it:
the filter excludes every line starting with `'+++'`, not only the header. -/
theorem added_lines_counterexample_c6 :
    fetchAddedLinesOnly ⟨"f.py", some plusPlusPatch⟩ = "+keep" ∧
    "+++x" ∈ pySplitlines plusPlusPatch ∧
    pyStartsWith "+++x" "+" = true ∧
    "+++x" ≠ "+++ b/f.py" ∧
    "+++x" ∉ addedLines plusPlusPatch := by
  refine ⟨rfl, ?_, rfl, by decide, ?_⟩ <;> decide

/-- C6 (amended): `fetch_added_lines_only` returns exactly the patch lines
that start with `'+'` and do not start with `'+++'` (so together with the
`+++` file header it drops any added line whose content begins with `++`),
in original order, without duplicating or dropping any such line. -/
theorem added_lines_amended_c6 (p : String) :
    List.Sublist (addedLines p) (pySplitlines p) ∧
    (∀ l, l ∈ addedLines p ↔ l ∈ pySplitlines p ∧ isKeptAddedLine l = true) ∧
    (∀ l, isKeptAddedLine l = true →
      (addedLines p).count l = (pySplitlines p).count l) := by
  refine ⟨List.filter_sublist _, fun l => List.mem_filter, fun l hl => ?_⟩
  simp [addedLines, List.count_filter, hl]

/-- Concrete instance of `added_lines_amended_c6`. -/
theorem added_lines_amended_c6_witness :
    "+keep" ∈ addedLines plusPlusPatch ↔
      "+keep" ∈ pySplitlines plusPlusPatch ∧ isKeptAddedLine "+keep" = true :=
  (added_lines_amended_c6 plusPlusPatch).2.1 "+keep"

/-- Reduction of `String.intercalate` on the empty list, for `simp`. -/
@[simp] theorem intercalateNil (s : String) : String.intercalate s [] = "" := rfl

/-- C7: for a file whose patch is absent or empty, `fetch_added_lines_only`
returns the empty string and the per-file pipeline of `main` skips the file
— no backend call is made (the outcome does not depend on any network
attempt) and the result is the non-error skip outcome. -/
theorem empty_patch_skips_c7 (file : ChangedFile)
    (h : file.patch = none ∨ file.patch = some "") :
    fetchAddedLinesOnly file = "" ∧
    ∀ b pub, processFile b pub file = .ok .noAddedLines := by
  have hadded : fetchAddedLinesOnly file = "" := by
    rcases h with h | h <;>
      simp [fetchAddedLinesOnly, h, addedLines, pySplitlines, splitlinesAux]
  exact ⟨hadded, fun b pub => by simp [processFile, hadded]⟩

/-- Concrete instance of `empty_patch_skips_c7`. -/
theorem empty_patch_skips_c7_witness :
    fetchAddedLinesOnly ⟨"f.py", none⟩ = "" ∧
    processFile .networkError .networkError ⟨"f.py", none⟩ = .ok .noAddedLines :=
  ⟨(empty_patch_skips_c7 ⟨"f.py", none⟩ (Or.inl rfl)).1,
   (empty_patch_skips_c7 ⟨"f.py", none⟩ (Or.inl rfl)).2 .networkError .networkError⟩

/-- A small diff with one added line. -/
def smallDiff : String := "@@ -1 +1 @@\n+x"

/-- C8 counterexample: in the diff-and-rules publisher of
`code_review - Copy.py`, the non-sentinel summary string `"Needs work"` —
canonical feedback `Summary "Needs work"` — is iterated as an annotation
collection and raises `TypeError`; no single position-1 comment is built. -/
theorem publisher_summary_counterexample_c8 :
    canonOfString "Needs work" = .Summary "Needs work" ∧
    buildCommentsCopy (.str "Needs work") smallDiff "f.py" = .error .typeError ∧
    ∀ cs, buildCommentsCopy (.str "Needs work") smallDiff "f.py" ≠ .ok cs := by
  refine ⟨by decide, rfl, fun cs h => ?_⟩
  rw [show buildCommentsCopy (.str "Needs work") smallDiff "f.py" =
    .error .typeError from rfl] at h
  exact Except.noConfusion h

/-- A 2xx chat-completions response whose content is `"Fix stuff"`. -/
def goodChatResponse : AttemptResult :=
  .response ⟨200, .json (.obj [("choices",
    .arr [.obj [("message", .obj [("content", .str "Fix stuff")])]])])⟩

/-- C8 (amended): in the chat pipeline of `code_review.py`, every truthy
feedback content (the fixed affirmative body for `Clean`, the summary text
for `Summary`) is submitted as exactly one ReviewComment at DiffPosition 1
in a single review POST (which may succeed, be logged as failed, or crash
in the failure handler); in the diff-and-rules pipeline of
`code_review - Copy.py` the single position-1 comment is built only for the
`Clean` sentinel. -/
theorem publisher_amended_c8 (file : ChangedFile) (content : Json)
    (b pub : AttemptResult)
    (hadded : fetchAddedLinesOnly file ≠ "")
    (hb : sendDiffToOpenai b = .ok (some content))
    (ht : pyTruthy content = true) :
    reviewCommentsFor file content = [⟨file.filename, 1, content⟩] ∧
    (processFile b pub file = .ok (.published [⟨file.filename, 1, content⟩]) ∨
     processFile b pub file = .ok (.publishFailed [⟨file.filename, 1, content⟩]) ∨
     processFile b pub file = .error .unboundLocalError) ∧
    (∀ d p, buildCommentsCopy (.str cleanSentinel) d p =
      .ok [⟨p, 1, .str cleanSentinel⟩]) := by
  refine ⟨rfl, ?_, fun d p => by simp [buildCommentsCopy]⟩
  cases pub with
  | networkError =>
    right; right
    simp [processFile, hadded, hb, ht, postReview, reviewCommentsFor]
  | response r =>
    by_cases hr : 400 ≤ r.status
    · right; left
      simp [processFile, hadded, hb, ht, postReview, hr, reviewCommentsFor]
    · left
      simp [processFile, hadded, hb, ht, postReview, hr, reviewCommentsFor]

/-- Concrete instance of `publisher_amended_c8`. -/
theorem publisher_amended_c8_witness :
    buildCommentsCopy (.str cleanSentinel) smallDiff "f.py" =
      .ok [⟨"f.py", 1, .str cleanSentinel⟩] :=
  (publisher_amended_c8 ⟨"f.py", some smallDiff⟩ (.str "Fix stuff")
    goodChatResponse .networkError (by decide) rfl (by decide)).2.2
    smallDiff "f.py"

/-- An environment in which the backend answers every review request with
`goodChatResponse` but every review POST to the hosting API hits a network
error. -/
def crashEnv : ChangedFile → AttemptResult × AttemptResult :=
  fun _ => (goodChatResponse, .networkError)

/-- First changed file of the two-file run. -/
def fileA : ChangedFile := ⟨"a.py", some smallDiff⟩

/-- Second changed file of the two-file run. -/
def fileB : ChangedFile := ⟨"b.py", some "@@ -1 +1 @@\n+y"⟩

/-- C9 (failing input): with two relevant files, when publishing the first
file's review hits a network error, `post_review`'s handler raises
`UnboundLocalError` (it reads the unbound `response`), aborting the run —
no per-file result list is produced and the second file is never processed,
although it is processable by itself (second conjunct). -/
theorem publish_failure_aborts_run_c9 :
    runFiles crashEnv [fileA, fileB] = .error .unboundLocalError ∧
    processFile goodChatResponse (.response ⟨200, .json .null⟩) fileB =
      .ok (.published [⟨"b.py", 1, .str "Fix stuff"⟩]) :=
  ⟨rfl, rfl⟩

/-- The per-file results of a completed run pair up with the processed files
in order. -/
theorem runFiles_ok_fst (env : ChangedFile → AttemptResult × AttemptResult)
    (fs : List ChangedFile) :
    ∀ res, runFiles env fs = .ok res → res.map Prod.fst = fs := by
  induction fs with
  | nil =>
    intro res h
    simp only [runFiles] at h
    injection h with h2
    simp [← h2]
  | cons f fs ih =>
    intro res h
    simp only [runFiles] at h
    cases hp : processFile (env f).1 (env f).2 f with
    | error e => simp [hp] at h
    | ok r =>
      simp only [hp] at h
      cases hr : runFiles env fs with
      | error e => simp [hr] at h
      | ok rest =>
        simp only [hr] at h
        injection h with h2
        rw [← h2]
        simp [ih rest hr]

/-- C10: `filter_relevant_files` returns exactly the sublist, in original
order, of the files whose name ends with a whitelisted source extension —
no relevant file is duplicated or dropped — and every file processed by the
per-file loop of `main` (so every file sent to the backend or reviewed) is
such a file. -/
theorem filter_relevant_c10 (files : List ChangedFile) :
    List.Sublist (filterRelevantFiles files) files ∧
    (∀ f, f ∈ filterRelevantFiles files ↔ f ∈ files ∧ isRelevantFile f = true) ∧
    (∀ f, isRelevantFile f = true →
      (filterRelevantFiles files).count f = files.count f) ∧
    (∀ env res, mainRun env files = .ok res →
      ∀ pr ∈ res, isRelevantFile pr.1 = true) := by
  refine ⟨List.filter_sublist _, fun f => List.mem_filter, fun f hf => ?_, ?_⟩
  · simp [filterRelevantFiles, List.count_filter, hf]
  · intro env res h pr hpr
    simp only [mainRun] at h
    have hmap := runFiles_ok_fst env (filterRelevantFiles files) res h
    have hmem : pr.1 ∈ filterRelevantFiles files := by
      rw [← hmap]
      exact List.mem_map_of_mem Prod.fst hpr
    exact (List.mem_filter.mp hmem).2

/-- A changed file that matches no whitelisted extension. -/
def textFile : ChangedFile := ⟨"notes.txt", none⟩

/-- Concrete instance of `filter_relevant_c10`. -/
theorem filter_relevant_c10_witness :
    List.Sublist (filterRelevantFiles [fileA, textFile]) [fileA, textFile] :=
  (filter_relevant_c10 [fileA, textFile]).1
